import Mathlib

/-!
Verification development for the XigRecorder repository (an Electron
screen/microphone recorder).  The definitions below are a shallow embedding of
the quota bookkeeping, OTP gate, microphone-acquisition fallback chain, audio
composition, track-end debounce, IPC channel registrations and the
`save-video` handler found in `src/main/index.js`, `src/main/preload.js` and
`src/renderer/src/App.jsx`.  Times are milliseconds as natural numbers
(JavaScript `Date.now()`), byte values are naturals below 256, and JavaScript
exceptions are `Except`.
-/

namespace XigRecorder

/- ===== JavaScript string trimming (`String.prototype.trim`) =====
`verify-otp` compares `String(rec.code) !== String(code).trim()`; `trim`
strips ECMAScript whitespace from both ends of the string. -/

def jsWhitespace (c : Char) : Bool :=
  c = ' ' || c = '\t' || c = '\n' || c = '\r' || c = '\x0b' || c = '\x0c'

def jsTrim (s : String) : String :=
  String.mk (((s.toList.dropWhile jsWhitespace).reverse.dropWhile jsWhitespace).reverse)

/- ===== Usage quota (renderer, App.jsx lines 20-58 and 212-239) =====
The renderer keeps the quota in `localStorage` under the keys
`xig_user_email`, `xig_guest_count` and `xig_user_count`; `QuotaState` is one
snapshot of those three cells.  The `isSubscribed` field is the subscription
flag of the spec's UsageLedger data model: the preload bridge exposes a
`setSubscribed` call for it, but no renderer code ever reads or writes such a
flag, which the theorems below make explicit. -/

structure QuotaState where
  userEmail : Option String
  guestCount : Nat
  userCount : Nat
  isSubscribed : Bool
deriving DecidableEq, Repr

def getUserEmail (st : QuotaState) : Option String := st.userEmail

def getGuestCount (st : QuotaState) : Nat := st.guestCount

def getUserCount (st : QuotaState) : Nat := st.userCount

def incGuestCount (st : QuotaState) : QuotaState :=
  { st with guestCount := st.guestCount + 1 }

def incUserCount (st : QuotaState) : QuotaState :=
  { st with userCount := st.userCount + 1 }

/- App.jsx lines 214-217: `const LIMITS = { guestFree: 5, loggedInFree: 10 }` -/

def LIMITS_guestFree : Nat := 5

def LIMITS_loggedInFree : Nat := 10

/- App.jsx lines 219-228. -/
def canStartRecording (st : QuotaState) : Bool :=
  match getUserEmail st with
  | none => decide (getGuestCount st < LIMITS_guestFree)
  | some _ => decide (getGuestCount st + getUserCount st < LIMITS_loggedInFree)

/- App.jsx lines 230-239. -/
def noteRecordingSaved (st : QuotaState) : QuotaState :=
  match getUserEmail st with
  | none => incGuestCount st
  | some _ => incUserCount st

/- ===== `mr.onstop` save flow (App.jsx lines 452-509) =====
The handler builds the blob, then: if the desktop bridge is available it
awaits `saveVideo` and calls `noteRecordingSaved()` only on a `success`
response; without the bridge it triggers a browser download and calls
`noteRecordingSaved()` unconditionally; a throw anywhere in the save attempt
lands in the `catch` without touching the counters.  The cleanup block after
the try/catch (stop all tracks, detach preview, disconnect the mixer) runs on
every path; the returned flag records that it was reached.
Arguments: `hasSaveApi` is whether `window.electronAPI.saveVideo` exists;
`saveResult` is the outcome of the save attempt (`.ok b` a response with
`success = b`, `.error ()` a thrown exception), only consulted on the bridge
path. -/

def mrOnStop (hasSaveApi : Bool) (saveResult : Except Unit Bool) (st : QuotaState) :
    QuotaState × Bool :=
  let st' :=
    if hasSaveApi then
      match saveResult with
      | .ok true => noteRecordingSaved st
      | .ok false => st
      | .error _ => st
    else
      noteRecordingSaved st
  (st', true)

/- ===== OTP gate (main/index.js lines 166-266) ===== -/

structure OtpRec where
  code : String
  expiresAt : Nat
deriving DecidableEq, Repr

/- `OTP_STORE` is a `Map` from email to record; modelled as an association
list whose observable behaviour (get / set-overwrite / delete) matches the
`Map` operations the handlers use. -/
abbrev OtpStore := List (String × OtpRec)

def storeGet (store : OtpStore) (email : String) : Option OtpRec :=
  match store with
  | [] => none
  | (k, r) :: rest => if k = email then some r else storeGet rest email

def storeDelete (store : OtpStore) (email : String) : OtpStore :=
  match store with
  | [] => []
  | (k, r) :: rest => if k = email then storeDelete rest email else (k, r) :: storeDelete rest email

def storeSet (store : OtpStore) (email : String) (r : OtpRec) : OtpStore :=
  (email, r) :: storeDelete store email

/- index.js lines 179-181: `String(Math.floor(100000 + Math.random() * 900000))`;
`roll` is the floored value of `Math.random() * 900000`. -/
def genOtp (roll : Nat) : String :=
  toString (100000 + roll % 900000)

inductive SendOutcome where
  | sent
  | invalidEmail
  | sendError
deriving DecidableEq, Repr

/- index.js lines 223-244 (`send-otp` handler).  `now` is `Date.now()` at the
handler, `ttl` is `OTP_TTL` in seconds, `deliveryOk` is whether
`sendBrevoEmail` resolves.  The record is stored *before* the email is
dispatched, so a delivery failure returns an error with the record already in
the store. -/
def sendOtp (store : OtpStore) (now ttl : Nat) (email : String) (roll : Nat)
    (deliveryOk : Bool) : SendOutcome × OtpStore :=
  if email = "" then (.invalidEmail, store)
  else
    let r : OtpRec := { code := genOtp roll, expiresAt := now + ttl * 1000 }
    let store' := storeSet store email r
    if deliveryOk then (.sent, store') else (.sendError, store')

inductive VerifyOutcome where
  | ok
  /-- result of the guard that throws when email or code is missing/empty -/
  | badRequest
  /-- result reading: no OTP requested for this email -/
  | notRequested
  /-- result reading: OTP expired -/
  | expired
  /-- result reading: Invalid OTP -/
  | mismatch
deriving DecidableEq, Repr

/- index.js lines 246-266 (`verify-otp` handler). -/
def verifyOtp (store : OtpStore) (now : Nat) (email code : String) :
    VerifyOutcome × OtpStore :=
  if email = "" ∨ code = "" then (.badRequest, store)
  else
    match storeGet store email with
    | none => (.notRequested, store)
    | some r =>
      if r.expiresAt < now then (.expired, storeDelete store email)
      else if r.code ≠ jsTrim code then (.mismatch, store)
      else (.ok, storeDelete store email)

/- ===== Microphone acquisition fallback chain (App.jsx lines 180-210) =====
After the permission-priming step (which only refreshes device labels and
never supplies the returned stream), `getMicStream` tries, in order:
exact-match on the selected device id (guarded), non-exact match on the same
id (same guard), then an unconstrained request whose failure propagates.
The platform's response to each constraint is the oracle `env`: `some s`
means `getUserMedia` resolves with stream `s`, `none` that it rejects. -/

inductive MicAttempt where
  | exact
  | loose
  | unconstrained
deriving DecidableEq, Repr

/- The guard on lines 203 and 206:
`selectedId && selectedId !== 'default' && selectedId !== 'communications'`
(an unset/empty id is falsy). -/
def eligibleDeviceId (id : String) : Bool :=
  id ≠ "" && id ≠ "default" && id ≠ "communications"

/- Runs a try/catch chain: returns the first successful attempt with its
stream together with the list of attempts actually issued. -/
def attemptChain (env : MicAttempt → Option Nat) :
    List MicAttempt → Option (MicAttempt × Nat) × List MicAttempt
  | [] => (none, [])
  | a :: rest =>
    match env a with
    | some s => (some (a, s), [a])
    | none => ((attemptChain env rest).1, a :: (attemptChain env rest).2)

def micAttemptOrder (id : String) : List MicAttempt :=
  if eligibleDeviceId id then [.exact, .loose, .unconstrained] else [.unconstrained]

def getMicStream (id : String) (env : MicAttempt → Option Nat) :
    Option (MicAttempt × Nat) × List MicAttempt :=
  attemptChain env (micAttemptOrder id)

/- ===== Audio composition (App.jsx lines 309-345 and 397-414) =====
A stream is a bag of tracks; `AudioTrack.mixed` is the single audio track of
the `MediaStreamAudioDestinationNode`'s stream (the Web Audio destination
node exposes exactly one audio track), the tagged constructors are the
sources' own tracks. -/

inductive AudioTrack where
  | screenA (i : Nat)
  | micA (i : Nat)
  | mixed
deriving DecidableEq, Repr

structure MStream where
  videoTracks : List Nat
  audioTracks : List AudioTrack
deriving DecidableEq, Repr

/- `!!(s && s.getAudioTracks && s.getAudioTracks().length > 0)` -/
def streamHasAudio : Option MStream → Bool
  | none => false
  | some s => decide (s.audioTracks.length > 0)

def audioTracksOf : Option MStream → List AudioTrack
  | none => []
  | some s => s.audioTracks

/- App.jsx lines 309-345.  In the both-sources branch the code connects each
source into one freshly created destination node (connect failures are logged
and swallowed, leaving a degraded mix) and returns that destination stream's
audio tracks, i.e. the one mixed track. -/
def mixAudioTracks (screen mic : Option MStream) : List AudioTrack :=
  let screenHasAudio := streamHasAudio screen
  let micHasAudio := streamHasAudio mic
  if !screenHasAudio && !micHasAudio then []
  else if !micHasAudio && screenHasAudio then audioTracksOf screen
  else if !screenHasAudio && micHasAudio then audioTracksOf mic
  else [AudioTrack.mixed]

/- App.jsx lines 397-414: the non-audio-only compose section of
`startRecording` — video tracks come from the screen stream alone, audio
tracks from the mix / single-source / empty selection chain. -/
def composeSection (screen mic : Option MStream) : MStream :=
  let videoTracks := (screen.map (·.videoTracks)).getD []
  let screenHasAudio := streamHasAudio screen
  let micHasAudio := streamHasAudio mic
  let audioTracks :=
    if micHasAudio && screenHasAudio then mixAudioTracks screen mic
    else if micHasAudio then audioTracksOf mic
    else if screenHasAudio then audioTracksOf screen
    else []
  { videoTracks := videoTracks, audioTracks := audioTracks }

/- ===== Track-ended handling (App.jsx lines 285-307, 443-449) =====
`attachStreamEndHandler` installs `track.onended` closures that defer their
work by `setTimeout(..., 120)` and then branch on the component's `recording`
state.  `recording` is React useState data, so each closure sees the value
captured at the render in which `attachStreamEndHandler` ran, not the live
value at callback time; `capturedRecording` is that snapshot.  In the
captured-active branch the recording is stopped when
`Date.now() - (lastStartTimeRef.current || 0) > 700`, where `Date.now()` is
taken `TRACK_END_GRACE_DELAY` after the event fired (`startedAt` is the
`mr.onstart` timestamp, `fireTime` the instant the ended event fired; extra
timer lag only increases the deferred `Date.now()`).  In the
captured-inactive branch the handler merely releases a still-pending picker
stream and stops nothing. -/

def TRACK_END_GRACE_DELAY : Nat := 120

def TRACK_END_DEBOUNCE_MS : Nat := 700

def trackEndStops (capturedRecording : Bool) (startedAt fireTime : Nat) : Bool :=
  if capturedRecording then
    decide (fireTime + TRACK_END_GRACE_DELAY - startedAt > TRACK_END_DEBOUNCE_MS)
  else false

/- Every `attachStreamEndHandler` call site (App.jsx lines 261, 357 and 376)
runs before `mr.onstart` executes `setRecording(true)` (line 445), and the
handlers are never re-attached after that — the callbacks that need fresh
values use refs (`lastStartTimeRef`, `pendingDisplayStreamRef`), but this
branch reads the raw state.  So the closure of every track belonging to a
session captured the pre-start value of `recording`: -/
def capturedRecordingAtAttach : Bool := false

/- ===== IPC channel registrations =====
The channels for which `src/main/index.js` calls `ipcMain.handle` (lines 49,
102, 118, 139, 151, 223, 246), and the channels the preload usage-limits API
invokes (`src/main/preload.js` lines 42-47).  `ipcRenderer.invoke` on a
channel with no registered handler rejects, and `invokeSafe` rethrows that
rejection to the renderer. -/

def registeredIpcChannels : List String :=
  ["save-video", "desktop-get-sources", "list-recordings",
   "open-recordings-folder", "reveal-recording", "send-otp", "verify-otp"]

def usageLedgerChannels : List String :=
  ["get-usage-info", "increment-recording-count", "reset-usage",
   "set-login-state", "set-subscribed"]

def ipcInvoke (channel : String) : Except String String :=
  if registeredIpcChannels.contains channel then .ok channel
  else .error ("No handler registered for " ++ channel)

/- ===== `save-video` handler (main/index.js lines 49-99) =====
The payload's `buffer` field can be any structured-clonable JavaScript value;
`JsValue` covers the shapes the handler dispatches on plus the remaining
primitive shapes a clone can carry.  Buffers, `ArrayBuffer`s and typed-array
views are represented by the byte sequence they hold. -/

inductive JsValue where
  /-- a Node `Buffer` (`Buffer.isBuffer`) -/
  | nodeBuffer (bytes : List Nat)
  /-- an `ArrayBuffer` -/
  | arrayBuffer (bytes : List Nat)
  /-- a typed-array / `DataView` (`ArrayBuffer.isView`), as the bytes it views -/
  | typedView (bytes : List Nat)
  /-- a JavaScript array of numbers -/
  | jarray (elems : List Int)
  /-- a plain object whose `data` property holds the given value -/
  | objWithData (data : JsValue)
  /-- a plain object without a `data` property -/
  | objPlain
  | jstr (s : String)
  | jnum (n : Int)
  | jbigint (n : Int)
  | jbool (b : Bool)
  | jnull
  | jundefined
deriving DecidableEq, Repr

/- ECMAScript ToBoolean. -/
def truthy : JsValue → Bool
  | .jnull => false
  | .jundefined => false
  | .jbool b => b
  | .jnum n => n ≠ 0
  | .jbigint n => n ≠ 0
  | .jstr s => s ≠ ""
  | _ => true

/- Property access `v.data` (only evaluated behind a truthiness guard in the
handler, so `null`/`undefined` never reach it). -/
def getData : JsValue → JsValue
  | .objWithData d => d
  | _ => .jundefined

/- `Buffer.from(array)` / typed-array element conversion: ToUint8 wraps the
number modulo 256. -/
def toUint8Byte (n : Int) : Nat := (n % 256).toNat

/- ToIntegerOrInfinity of a numeric string for `new Uint8Array(string)`:
empty-after-trim is 0, an integral numeral is its value, anything else is NaN
hence 0 (non-integral numerals are modelled by their integer part being
absent, i.e. 0, which no claim depends on). -/
def jsStringToLen (s : String) : Except Unit Nat :=
  let t := jsTrim s
  if t = "" then .ok 0
  else
    match t.toInt? with
    | some n => if n < 0 then .error () else .ok n.toNat
    | none => .ok 0

/- `new Uint8Array(x)`: contents for buffer-like and array arguments, a
zero-filled array of ToIndex(x) elements otherwise; throws `RangeError` on a
negative length and `TypeError` on a BigInt. -/
def uint8FromValue : JsValue → Except Unit (List Nat)
  | .nodeBuffer bs => .ok bs
  | .arrayBuffer bs => .ok bs
  | .typedView bs => .ok bs
  | .jarray l => .ok (l.map toUint8Byte)
  | .objWithData _ => .ok []
  | .objPlain => .ok []
  | .jstr s => (jsStringToLen s).map (fun n => List.replicate n 0)
  | .jnum n => if n < 0 then .error () else .ok (List.replicate n.toNat 0)
  | .jbigint _ => .error ()
  | .jbool b => .ok (if b then [0] else [])
  | .jnull => .ok []
  | .jundefined => .ok []

/- Base64 alphabet value of a character; Node's base64 decoder skips
characters outside the alphabet. -/
def base64Val (c : Char) : Option Nat :=
  if 'A' ≤ c && c ≤ 'Z' then some (c.toNat - 65)
  else if 'a' ≤ c && c ≤ 'z' then some (c.toNat - 97 + 26)
  else if '0' ≤ c && c ≤ '9' then some (c.toNat - 48 + 52)
  else if c = '+' then some 62
  else if c = '/' then some 63
  else none

/- Groups of four 6-bit values become three bytes; a trailing group of two or
three values yields one or two bytes. -/
def base64Chunks : List Nat → List Nat
  | a :: b :: c :: d :: rest =>
    (a * 4 + b / 16) :: ((b % 16) * 16 + c / 4) :: ((c % 4) * 64 + d) :: base64Chunks rest
  | [a, b, c] => [a * 4 + b / 16, (b % 16) * 16 + c / 4]
  | [a, b] => [a * 4 + b / 16]
  | _ => []

/- `Buffer.from(s, 'base64')` — total: invalid characters are skipped, so the
`catch` around it in the handler is unreachable. -/
def base64Decode (s : String) : List Nat :=
  base64Chunks (s.toList.filterMap base64Val)

/- The string branch (lines 73-81): a `data:` URL is decoded after its first
comma (`indexOf` returning -1 makes `slice(0)` the whole string), any other
string is decoded as base64 directly. -/
def stringToBytes (s : String) : List Nat :=
  if s.startsWith "data:" then
    let cs := s.toList
    if cs.contains ',' then base64Decode (String.mk ((cs.dropWhile (· ≠ ',')).tail))
    else base64Decode s
  else base64Decode s

/- `JSON.stringify` restricted to this value universe: a BigInt throws
`TypeError`; a top-level `undefined` yields no string (so the subsequent
`Buffer.from(undefined)` throws), modelled as the same error; inside an
object an `undefined` property is omitted.  String escaping is not modelled
(no claim depends on the exact characters). -/
def jsonStringify : JsValue → Except Unit String
  | .jbigint _ => .error ()
  | .jundefined => .error ()
  | .jnull => .ok "null"
  | .jbool b => .ok (if b then "true" else "false")
  | .jnum n => .ok (toString n)
  | .jstr s => .ok ("\"" ++ s ++ "\"")
  | .jarray l => .ok ("[" ++ String.intercalate "," (l.map toString) ++ "]")
  | .objPlain => .ok "\x7b\x7d"
  | .objWithData d =>
    match d with
    | .jbigint _ => .error ()
    | .jundefined => .ok "\x7b\x7d"
    | d' => (jsonStringify d').map (fun inner => "\x7b\"data\":" ++ inner ++ "\x7d")
  | .nodeBuffer _ => .ok "\x7b\x7d"
  | .arrayBuffer _ => .ok "\x7b\x7d"
  | .typedView _ => .ok "\x7b\x7d"

/- UTF-8 bytes of a string (`Buffer.from(string)`). -/
def utf8Bytes (s : String) : List Nat :=
  s.toUTF8.toList.map UInt8.toNat

/- Lines 82-90: the final `else`.  `maybeArr = buffer && buffer.data ?
buffer.data : buffer`, then `Buffer.from(new Uint8Array(maybeArr))`; if that
throws, `Buffer.from(JSON.stringify(buffer || ''))` — whose own throw (e.g.
on a BigInt) escapes to the handler's outer catch. -/
def fallbackBytes (buffer : JsValue) : Except Unit (List Nat) :=
  let maybeArr := if truthy buffer && truthy (getData buffer) then getData buffer else buffer
  match uint8FromValue maybeArr with
  | .ok bs => .ok bs
  | .error _ =>
    let v := if truthy buffer then buffer else .jstr ""
    (jsonStringify v).map utf8Bytes

/- Lines 58-90: the `dataBuffer` computation.  The guarded object branch
(line 66) only fires when the `data` property is an array, `ArrayBuffer` or
view; every other object falls through to the final `else`. -/
def computeDataBuffer (buffer : JsValue) : Except Unit (List Nat) :=
  match buffer with
  | .nodeBuffer bs => .ok bs
  | .arrayBuffer bs => .ok bs
  | .typedView bs => .ok bs
  | .objWithData d =>
    match d with
    | .jarray l => .ok (l.map toUint8Byte)
    | .arrayBuffer bs => .ok bs
    | .typedView bs => .ok bs
    | _ => fallbackBytes (.objWithData d)
  | .jstr s => .ok (stringToBytes s)
  | b => fallbackBytes b

/- `!filename || typeof filename !== 'string'` — `some s` exactly when the
filename is a non-empty string. -/
def filenameString : JsValue → Option String
  | .jstr s => if s = "" then none else some s
  | _ => none

structure SavePayload where
  buffer : JsValue
  filename : JsValue
deriving Repr

/- The filesystem collaborators: the resolved videos directory, and whether
`mkdir` (line 54) and `writeFile` (line 92) succeed. -/
structure SaveEnv where
  videosPath : String
  mkdirOk : Bool
  writeOk : Bool
deriving Repr

inductive SaveResult where
  | success (path : String) (size : Nat)
  | failure (error : String)
deriving DecidableEq, Repr

/- The body of the handler's `try` block; `.error` is a thrown exception. -/
def saveVideoBody (env : SaveEnv) (payload : SavePayload) : Except String (String × Nat) :=
  match filenameString payload.filename with
  | none => .error "Invalid filename"
  | some fname =>
    if !env.mkdirOk then .error "mkdir failed"
    else
      let filePath := env.videosPath ++ "/" ++ fname
      match computeDataBuffer payload.buffer with
      | .error _ => .error "buffer coercion failed"
      | .ok bytes =>
        if env.writeOk then .ok (filePath, bytes.length)
        else .error "write failed"

/- Lines 49-99: the outer try/catch turns every throw into a
`success: false` response, so the handler always resolves with a result
object. -/
def saveVideo (env : SaveEnv) (payload : SavePayload) : SaveResult :=
  match saveVideoBody env payload with
  | .ok (p, n) => .success p n
  | .error e => .failure e

/- ===== Concrete fixtures used by the witness theorems ===== -/

/- A platform where exact-match acquisition rejects, non-exact resolves with
stream 7 and an unconstrained request would resolve with stream 9. -/
def micEnvW : MicAttempt → Option Nat := fun a =>
  match a with
  | .exact => none
  | .loose => some 7
  | .unconstrained => some 9

def screenW : MStream := { videoTracks := [1], audioTracks := [AudioTrack.screenA 0] }

def micW : MStream := { videoTracks := [], audioTracks := [AudioTrack.micA 0] }

def saveEnvW : SaveEnv := { videosPath := "/home/user/Videos", mkdirOk := true, writeOk := true }

/- ===== Helper lemmas about the OTP store ===== -/

theorem storeGet_storeDelete_self (s : OtpStore) (e : String) :
    storeGet (storeDelete s e) e = none := by
  induction s with
  | nil => simp [storeDelete, storeGet]
  | cons kv rest ih =>
    obtain ⟨k, r⟩ := kv
    by_cases h : k = e <;> simp [storeDelete, storeGet, h, ih]

theorem storeGet_storeSet_self (s : OtpStore) (e : String) (r : OtpRec) :
    storeGet (storeSet s e r) e = some r := by
  simp [storeSet, storeGet]

/- ===== C1 ===== -/

/-- Claim C1 counterexample: the renderer's quota check never consults any
subscription state — a logged-in subscribed user with the counters at the
limit is denied, where the claim requires the check to return true
unconditionally for a subscribed user. -/
theorem canStartRecording_ignores_subscription_cex :
    (QuotaState.mk (some "user@example.com") 5 5 true).isSubscribed = true ∧
    canStartRecording (QuotaState.mk (some "user@example.com") 5 5 true) = false := by
  decide

/-- Claim C1 (amended): the can-record check returns true for a guest iff
guestCount is below 5 and for a logged-in user iff guestCount + userCount is
below 10; it is entirely independent of the subscription flag (no
subscribed-user bypass exists in the code). -/
theorem canStartRecording_quota_policy (st : QuotaState) :
    (st.userEmail = none → (canStartRecording st = true ↔ st.guestCount < 5)) ∧
    (∀ e, st.userEmail = some e →
       (canStartRecording st = true ↔ st.guestCount + st.userCount < 10)) ∧
    (∀ b, canStartRecording { st with isSubscribed := b } = canStartRecording st) := by
  refine ⟨?_, ?_, ?_⟩
  · intro h
    simp [canStartRecording, getUserEmail, getGuestCount, h, LIMITS_guestFree]
  · intro e h
    simp [canStartRecording, getUserEmail, getGuestCount, getUserCount, h, LIMITS_loggedInFree]
  · intro b
    cases h : st.userEmail <;>
      simp [canStartRecording, getUserEmail, getGuestCount, getUserCount, h]

/-- Witness for C1's amended theorem at a concrete guest state. -/
theorem canStartRecording_quota_policy_witness :
    canStartRecording (QuotaState.mk none 3 0 false) = true := by
  have h := (canStartRecording_quota_policy (QuotaState.mk none 3 0 false)).1 rfl
  exact h.mpr (by decide)

/- ===== C2 ===== -/

/-- Claim C2: after a recording stops, the ledger is incremented exactly once
(guestCount when not logged in, else userCount) when the save reports success
or the browser-download fallback is taken; it is untouched when the save
reports failure or throws; the cleanup block runs on every path. -/
theorem mrOnStop_ledger_increment (hasSaveApi : Bool) (saveResult : Except Unit Bool)
    (st : QuotaState) :
    ((hasSaveApi = true ∧ saveResult = .ok true) ∨ hasSaveApi = false →
       (mrOnStop hasSaveApi saveResult st).1 = noteRecordingSaved st) ∧
    (hasSaveApi = true → saveResult = .ok false ∨ saveResult = .error () →
       (mrOnStop hasSaveApi saveResult st).1 = st) ∧
    (st.userEmail = none →
       noteRecordingSaved st = { st with guestCount := st.guestCount + 1 }) ∧
    (∀ e, st.userEmail = some e →
       noteRecordingSaved st = { st with userCount := st.userCount + 1 }) ∧
    (mrOnStop hasSaveApi saveResult st).2 = true := by
  refine ⟨?_, ?_, ?_, ?_, ?_⟩
  · rintro (⟨h1, h2⟩ | h1)
    · simp [mrOnStop, h1, h2]
    · simp [mrOnStop, h1]
  · rintro h1 (h2 | h2) <;> simp [mrOnStop, h1, h2]
  · intro h
    simp [noteRecordingSaved, getUserEmail, incGuestCount, h]
  · intro e h
    simp [noteRecordingSaved, getUserEmail, incUserCount, h]
  · cases hasSaveApi <;> cases saveResult <;> simp [mrOnStop]

/-- Witness for C2 at a concrete guest state with a successful save. -/
theorem mrOnStop_ledger_increment_witness :
    (mrOnStop true (.ok true) (QuotaState.mk none 0 0 false)).1 = QuotaState.mk none 1 0 false := by
  have h := mrOnStop_ledger_increment true (.ok true) (QuotaState.mk none 0 0 false)
  rw [h.1 (Or.inl ⟨rfl, rfl⟩), h.2.2.1 rfl]

/- ===== C8 ===== -/

/-- Claim C8 (code bug): the track-ended handler never stops a session at
all — every onended closure captured the pre-start value false of
`recording` (the handlers are attached before setRecording(true) runs and
never re-attached), so the deferred callback always takes the not-recording
branch, whatever the event's timing; in particular the claim's 900ms-after-
start event does not stop the session.  The final conjunct evaluates the
dead stop branch: had the closure seen the live recording state, that input
would have stopped the session, which is the behaviour the claim (and the
branch's own code) describes. -/
theorem trackEnd_stale_closure_never_stops (startedAt fireTime : Nat) :
    trackEndStops capturedRecordingAtAttach startedAt fireTime = false ∧
    trackEndStops capturedRecordingAtAttach startedAt (startedAt + 900) = false ∧
    trackEndStops true startedAt (startedAt + 900) = true := by
  refine ⟨rfl, rfl, ?_⟩
  simp only [trackEndStops, TRACK_END_GRACE_DELAY, TRACK_END_DEBOUNCE_MS, if_true,
    decide_eq_true_eq]
  omega

/- ===== C9 ===== -/

/-- Claim C9: every channel used by the preload usage-limits API
(getUsageInfo, incrementRecording, resetUsage, setLoginState, setSubscribed)
has no registered ipcMain handler, so every such invoke rejects with an
error. -/
theorem usage_api_channels_unregistered :
    usageLedgerChannels.all
      (fun ch => match ipcInvoke ch with | .error _ => true | .ok _ => false) = true := by
  decide

/- ===== C3 ===== -/

/-- Claim C3: OTP codes are single-use and time-boxed — after issuing a code
for an email, verifying the correct code at or before the expiry succeeds and
deletes the record, a second verify with the same code then fails with
NotRequested, and a verify after the TTL elapsed fails with Expired while
also deleting the record. -/
theorem otp_single_use_timeboxed (store st1 : OtpStore) (email c : String)
    (now ttl roll tv : Nat)
    (he : email ≠ "") (hst : st1 = (sendOtp store now ttl email roll true).2)
    (hcode : c = genOtp roll) (hc : c ≠ "") (ht : jsTrim c = c) :
    (tv ≤ now + ttl * 1000 →
       verifyOtp st1 tv email c = (.ok, storeDelete st1 email) ∧
       storeGet (storeDelete st1 email) email = none ∧
       (verifyOtp (storeDelete st1 email) tv email c).1 = .notRequested) ∧
    (now + ttl * 1000 < tv →
       (verifyOtp st1 tv email c).1 = .expired ∧
       storeGet (verifyOtp st1 tv email c).2 email = none) := by
  subst hcode
  have hget : storeGet st1 email = some (OtpRec.mk (genOtp roll) (now + ttl * 1000)) := by
    subst hst
    simp [sendOtp, he, storeGet_storeSet_self]
  constructor
  · intro htv
    refine ⟨?_, storeGet_storeDelete_self _ _, ?_⟩
    · simp [verifyOtp, he, hc, hget, ht, Nat.not_lt.mpr htv]
    · simp [verifyOtp, he, hc, storeGet_storeDelete_self]
  · intro htv
    constructor
    · simp [verifyOtp, he, hc, hget, htv]
    · simp [verifyOtp, he, hc, hget, htv, storeGet_storeDelete_self]

/-- Witness for C3: issuing to a concrete email at time 0 with TTL 300s, then
verifying the generated code at time 5, succeeds and deletes the record. -/
theorem otp_single_use_timeboxed_witness :
    verifyOtp (sendOtp [] 0 300 "a@b.c" 0 true).2 5 "a@b.c" (genOtp 0)
      = (.ok, storeDelete (sendOtp [] 0 300 "a@b.c" 0 true).2 "a@b.c") := by
  have h := otp_single_use_timeboxed [] ((sendOtp [] 0 300 "a@b.c" 0 true).2) "a@b.c"
      (genOtp 0) 0 300 0 5 (by decide) rfl rfl (by decide) (by decide)
  exact (h.1 (by omega)).1

/- ===== C4 ===== -/

/-- Claim C4 counterexample: with a pending record in the store, submitting
an empty code — which after trimming certainly differs from the stored
6-digit code — fails on the missing-argument guard, not with Mismatch. -/
theorem verify_empty_code_not_mismatch_cex :
    storeGet [("user@example.com", OtpRec.mk "123456" 1000)] "user@example.com"
      = some (OtpRec.mk "123456" 1000) ∧
    jsTrim "" ≠ "123456" ∧
    (verifyOtp [("user@example.com", OtpRec.mk "123456" 1000)] 500 "user@example.com" "").1
      = .badRequest ∧
    (verifyOtp [("user@example.com", OtpRec.mk "123456" 1000)] 500 "user@example.com" "").1
      ≠ .mismatch := by
  decide

/-- Claim C4 (amended): for every pending, not-yet-expired record and every
nonempty submitted code that differs after trimming from the stored code,
verify fails with Mismatch and leaves the store unchanged, so a later verify
of the correct code at or before the expiry still succeeds; an empty
submission instead trips the missing-argument guard. -/
theorem otp_mismatch_preserves_record (store : OtpStore) (email code : String)
    (r : OtpRec) (now : Nat)
    (he : email ≠ "") (hcode : code ≠ "") (hrec : storeGet store email = some r)
    (hnotexp : now ≤ r.expiresAt) (hdiff : jsTrim code ≠ r.code) :
    verifyOtp store now email code = (.mismatch, store) ∧
    (r.code ≠ "" → jsTrim r.code = r.code → ∀ t, t ≤ r.expiresAt →
       verifyOtp store t email r.code = (.ok, storeDelete store email)) := by
  constructor
  · simp [verifyOtp, he, hcode, hrec, Nat.not_lt.mpr hnotexp, Ne.symm hdiff]
  · intro h1 h2 t ht
    simp [verifyOtp, he, h1, h2, hrec, Nat.not_lt.mpr ht]

/-- Witness for C4's amended theorem: a wrong code leaves the record in place
and returns Mismatch. -/
theorem otp_mismatch_preserves_record_witness :
    verifyOtp [("u@x.io", OtpRec.mk "654321" 9000)] 100 "u@x.io" "000000"
      = (.mismatch, [("u@x.io", OtpRec.mk "654321" 9000)]) := by
  have h := otp_mismatch_preserves_record [("u@x.io", OtpRec.mk "654321" 9000)]
      "u@x.io" "000000" (OtpRec.mk "654321" 9000) 100 (by decide) (by decide) (by decide)
      (by decide) (by decide)
  exact h.1

/- ===== C5 ===== -/

/-- Claim C5: issuing an OTP stores the new record — overwriting any prior
record for that email — before attempting delivery, so a delivery failure
returns an error while the stored code remains present and verifiable within
its TTL. -/
theorem sendOtp_stores_code_before_delivery (store : OtpStore) (email c : String)
    (now ttl roll tv : Nat)
    (he : email ≠ "") (hcode : c = genOtp roll) (hc : c ≠ "") (ht : jsTrim c = c)
    (htv : tv ≤ now + ttl * 1000) :
    (sendOtp store now ttl email roll false).1 = .sendError ∧
    (sendOtp store now ttl email roll false).2 = (sendOtp store now ttl email roll true).2 ∧
    storeGet (sendOtp store now ttl email roll false).2 email
      = some (OtpRec.mk c (now + ttl * 1000)) ∧
    (verifyOtp (sendOtp store now ttl email roll false).2 tv email c).1 = .ok := by
  subst hcode
  have hget : storeGet (sendOtp store now ttl email roll false).2 email
      = some (OtpRec.mk (genOtp roll) (now + ttl * 1000)) := by
    simp [sendOtp, he, storeGet_storeSet_self]
  refine ⟨?_, ?_, ?_, ?_⟩
  · simp [sendOtp, he]
  · simp [sendOtp, he]
  · rw [hget]
  · simp [verifyOtp, he, hc, hget, ht, Nat.not_lt.mpr htv]

/-- Witness for C5: a failed delivery still leaves a verifiable code in the
store. -/
theorem sendOtp_stores_code_before_delivery_witness :
    (sendOtp [] 1000 300 "c@d.e" 42 false).1 = .sendError ∧
    (verifyOtp (sendOtp [] 1000 300 "c@d.e" 42 false).2 2000 "c@d.e" (genOtp 42)).1 = .ok := by
  have h := sendOtp_stores_code_before_delivery [] "c@d.e" (genOtp 42) 1000 300 42 2000
      (by decide) rfl (by decide) (by decide) (by omega)
  exact ⟨h.1, h.2.2.2⟩

/- ===== C6 ===== -/

/-- Claim C6: microphone acquisition tries — in order, stopping at the first
success — exact-match on an eligible device id, then a non-exact match on the
same id, then an unconstrained request; with a sentinel or empty id only the
unconstrained request is made; a later step is attempted only after every
earlier step failed, and a failure propagates to the caller only when every
attempted step failed. -/
theorem getMicStream_fallback_chain (id : String) (env : MicAttempt → Option Nat) :
    (eligibleDeviceId id = true →
       (∀ s, env .exact = some s → getMicStream id env = (some (.exact, s), [.exact])) ∧
       (∀ s, env .exact = none → env .loose = some s →
          getMicStream id env = (some (.loose, s), [.exact, .loose])) ∧
       (env .exact = none → env .loose = none →
          getMicStream id env
            = ((env .unconstrained).map (fun s => (.unconstrained, s)),
               [.exact, .loose, .unconstrained]))) ∧
    (eligibleDeviceId id = false →
       getMicStream id env
         = ((env .unconstrained).map (fun s => (.unconstrained, s)), [.unconstrained])) ∧
    ((getMicStream id env).1 = none →
       ∀ a ∈ (getMicStream id env).2, env a = none) := by
  refine ⟨?_, ?_, ?_⟩
  · intro helig
    refine ⟨?_, ?_, ?_⟩
    · intro s hs
      simp [getMicStream, micAttemptOrder, helig, attemptChain, hs]
    · intro s hx hl
      simp [getMicStream, micAttemptOrder, helig, attemptChain, hx, hl]
    · intro hx hl
      cases hu : env .unconstrained <;>
        simp [getMicStream, micAttemptOrder, helig, attemptChain, hx, hl, hu]
  · intro helig
    cases hu : env .unconstrained <;>
      simp [getMicStream, micAttemptOrder, helig, attemptChain, hu]
  · intro hnone a ha
    cases helig : eligibleDeviceId id <;>
      cases hx : env .exact <;> cases hl : env .loose <;> cases hu : env .unconstrained <;>
      cases a <;> simp_all [getMicStream, micAttemptOrder, attemptChain]

/-- Witness for C6: with a concrete eligible device id whose exact-match
attempt rejects and whose non-exact attempt resolves with stream 7, the
returned stream comes from the non-exact attempt and the unconstrained
request is never issued. -/
theorem getMicStream_fallback_chain_witness :
    getMicStream "mic-123" micEnvW = (some (.loose, 7), [.exact, .loose]) := by
  have h := (getMicStream_fallback_chain "mic-123" micEnvW).1 (by decide)
  exact h.2.1 7 rfl rfl

/- ===== C7 ===== -/

/-- Claim C7: in a non-audio-only capture mode the combined stream's audio
tracks are exactly the one mixed destination track when both sources have
audio, exactly the single audible source's own tracks when one does, and
empty when neither does — never the two sources' tracks side by side. -/
theorem compose_audio_track_selection (screen mic : Option MStream) :
    (streamHasAudio screen = true → streamHasAudio mic = true →
       (composeSection screen mic).audioTracks = [AudioTrack.mixed]) ∧
    (streamHasAudio screen = true → streamHasAudio mic = false →
       (composeSection screen mic).audioTracks = audioTracksOf screen) ∧
    (streamHasAudio screen = false → streamHasAudio mic = true →
       (composeSection screen mic).audioTracks = audioTracksOf mic) ∧
    (streamHasAudio screen = false → streamHasAudio mic = false →
       (composeSection screen mic).audioTracks = []) := by
  refine ⟨?_, ?_, ?_, ?_⟩ <;> intro h1 h2 <;>
    simp [composeSection, mixAudioTracks, h1, h2]

/-- Witness for C7: a screen stream and a mic stream that both carry audio
compose to exactly the one mixed track. -/
theorem compose_audio_track_selection_witness :
    (composeSection (some screenW) (some micW)).audioTracks = [AudioTrack.mixed] := by
  exact (compose_audio_track_selection (some screenW) (some micW)).1 (by decide) (by decide)

/- ===== C10 ===== -/

/-- Claim C10 counterexample: a BigInt buffer value makes both coercion
attempts throw (`new Uint8Array` on a BigInt and then `JSON.stringify` of a
BigInt), so the handler returns a failure result even though the filename is
a valid non-empty string and the filesystem operations succeed. -/
theorem saveVideo_bigint_failure_cex :
    filenameString (.jstr "rec.webm") = some "rec.webm" ∧
    saveEnvW.mkdirOk = true ∧ saveEnvW.writeOk = true ∧
    saveVideo saveEnvW { buffer := .jbigint 1, filename := .jstr "rec.webm" }
      = .failure "buffer coercion failed" := by
  decide

/-- Claim C10 (amended): the handler is total — it always returns a result
object, never a thrown exception; a payload whose buffer coerces to bytes is
written and reported as success with the joined path and the byte count; and
a failure result arises only from an absent/non-string filename, a
filesystem failure, or the byte-coercion fallback itself throwing (which a
BigInt buffer triggers). -/
theorem saveVideo_total_result (env : SaveEnv) (payload : SavePayload) :
    ((∃ p n, saveVideo env payload = .success p n) ∨
       (∃ e, saveVideo env payload = .failure e)) ∧
    (∀ fname bytes, filenameString payload.filename = some fname →
       env.mkdirOk = true → env.writeOk = true →
       computeDataBuffer payload.buffer = .ok bytes →
       saveVideo env payload = .success (env.videosPath ++ "/" ++ fname) bytes.length) ∧
    (∀ e, saveVideo env payload = .failure e →
       filenameString payload.filename = none ∨ env.mkdirOk = false ∨
       computeDataBuffer payload.buffer = .error () ∨ env.writeOk = false) := by
  refine ⟨?_, ?_, ?_⟩
  · cases h : saveVideo env payload with
    | success p n => exact Or.inl ⟨p, n, rfl⟩
    | failure e => exact Or.inr ⟨e, rfl⟩
  · intro fname bytes hf hm hw hb
    simp [saveVideo, saveVideoBody, hf, hm, hw, hb]
  · intro e hfail
    by_cases hf : filenameString payload.filename = none
    · exact Or.inl hf
    · obtain ⟨fname, hfname⟩ := Option.ne_none_iff_exists'.mp hf
      cases hm : env.mkdirOk with
      | false => exact Or.inr (Or.inl rfl)
      | true =>
        cases hb : computeDataBuffer payload.buffer with
        | error u => exact Or.inr (Or.inr (Or.inl (by simp [hb])))
        | ok bytes =>
          cases hw : env.writeOk with
          | false => exact Or.inr (Or.inr (Or.inr rfl))
          | true =>
            exfalso
            rw [saveVideo, saveVideoBody, hfname] at hfail
            simp [hm, hw, hb] at hfail

/-- Witness for C10's amended theorem: a Node Buffer payload with a valid
filename is written and reported as success with its path and size. -/
theorem saveVideo_total_result_witness :
    saveVideo saveEnvW { buffer := .nodeBuffer [1, 2, 3], filename := .jstr "clip.webm" }
      = .success ("/home/user/Videos" ++ "/" ++ "clip.webm") 3 := by
  have h := (saveVideo_total_result saveEnvW
      { buffer := .nodeBuffer [1, 2, 3], filename := .jstr "clip.webm" }).2.1
  exact h "clip.webm" [1, 2, 3] (by decide) rfl rfl rfl

end XigRecorder
